import Mathlib

/-!
Shallow embedding of `src/Snake-Game/snake.py` (the "Super Noah-Snake-Game").

The grid is 800×600 pixels with 20-pixel cells (40 × 30 = 1200 cells); snake
segments, food and obstacles are pixel positions that are multiples of the
cell size.  The per-tick state update of the main loop (lines 211–274 of the
source) is embedded as a pure transition function `tick` on a state record
`GState`.  Randomness (`random.randint` inside `random_food_position`,
`random.random() < 0.1` for the power-food choice) is supplied through
oracles: `random_food_position` takes a stream of proposed cell indices and
an explicit fuel bound (the source loops unboundedly), and `tick` takes a
`Rand` record holding the cell the food respawn would produce, the 10%
power-food coin flip, and the cells produced for obstacle placement.
Presentation concerns (drawing, sounds, particles, HUD) are omitted: they do
not read back into the game state.  `save_high_score` is embedded as the
`max` update it performs on the in-memory high score; the file write is
ignored.
-/

namespace SnakeGame

/-- A pixel position; game cells are positions whose coordinates are
multiples of `CELL_SIZE`. -/
abbrev Cell := Int × Int

def WIDTH : Int := 800

def HEIGHT : Int := 600

def CELL_SIZE : Int := 20

/-- Base tick rate `FPS = 7` of the source. -/
def baseFPS : ℚ := 7

def DEAD_ZONE : Int := 150

/-- Joystick centre calibration `joy_center_x, joy_center_y = 512, 512`. -/
def joyCenter : Int := 512

/-- The mutable game variables of the source (lines 96–107), minus the
purely cosmetic ones (`particles`, `show_grid`).  `fps` is rational because
the source does `FPS += 0.5` on level-up. -/
structure GState where
  snake : List Cell
  direction : Cell
  food_pos : Cell
  food_power : Bool
  score : Nat
  game_over : Bool
  level : Nat
  obstacles : List Cell
  powerup_active : Bool
  powerup_timer : Int
  fps : ℚ
  high_score : Nat
deriving DecidableEq

/-- Oracle for the random draws a single tick can make: the cell
`random_food_position` returns when food respawns, the `random.random() < 0.1`
power flag for the new food, and the successive cells returned by
`random_food_position` inside the obstacle-placement loop (`obsCells k` is
the `k`-th obstacle appended on this tick). -/
structure Rand where
  foodCell : Cell
  foodPower : Bool
  obsCells : Nat → Cell

/-- Lines 213–215: `if (new_dir[0] * -1, new_dir[1] * -1) != direction and
new_dir != (0, 0): direction = new_dir`. -/
def updateDirection (direction new_dir : Cell) : Cell :=
  if (-new_dir.1, -new_dir.2) ≠ direction ∧ new_dir ≠ (0, 0) then new_dir else direction

/-- Lines 218–219: `new_head = (snake[0][0] + direction[0] * CELL_SIZE,
snake[0][1] + direction[1] * CELL_SIZE)`. -/
def newHead (s : GState) (d : Cell) : Cell :=
  (s.snake.headI.1 + d.1 * CELL_SIZE, s.snake.headI.2 + d.2 * CELL_SIZE)

/-- Lines 222–223: wall collision test on the new head. -/
def wallCollision (p : Cell) : Bool :=
  decide (p.1 < 0) || decide (p.1 ≥ WIDTH) || decide (p.2 < 0) || decide (p.2 ≥ HEIGHT)

/-- Line 229: `not powerup_active and (new_head in snake or new_head in
obstacles)`. -/
def bodyCollision (s : GState) (p : Cell) : Bool :=
  !s.powerup_active && (decide (p ∈ s.snake) || decide (p ∈ s.obstacles))

/-- Lines 270–274: the power-up countdown.  If active, decrement the timer;
at zero (or below) deactivate and reset `FPS` to the base value `7`. -/
def powerStep (s : GState) : GState :=
  if s.powerup_active then
    let t := s.powerup_timer - 1
    if t ≤ 0 then
      { s with powerup_timer := t, powerup_active := false, fps := baseFPS }
    else
      { s with powerup_timer := t }
  else s

/-- Lines 218–259: compute the new head from the (already updated, nonzero)
direction `dir`, set `game_over` on a wall/body/obstacle collision (the
source does NOT skip the rest of the tick), insert the new head, and either
eat the food (no tail pop, score and high score bump, power-up activation
and speed boost on a power food, food respawn from the oracle) or pop the
tail. -/
def moveStep (r : Rand) (dir : Cell) (s : GState) : GState :=
  if newHead s dir = s.food_pos then
    { s with direction := dir,
             game_over := wallCollision (newHead s dir) || bodyCollision s (newHead s dir),
             snake := newHead s dir :: s.snake,
             score := s.score + 1,
             high_score := max s.high_score (s.score + 1),
             powerup_active := if s.food_power then true else s.powerup_active,
             powerup_timer := if s.food_power then 105 else s.powerup_timer,
             fps := if s.food_power then 10 else s.fps,
             food_pos := r.foodCell,
             food_power := r.foodPower }
  else
    { s with direction := dir,
             game_over := wallCollision (newHead s dir) || bodyCollision s (newHead s dir),
             snake := (newHead s dir :: s.snake).dropLast }

/-- Lines 262–267: if the level derived from the score exceeds the stored
level, store it, bump `FPS` by `0.5`, and append `level` freshly drawn
obstacle cells (`for _ in range(level)`), where `level` is the NEW level. -/
def levelStep (r : Rand) (s : GState) : GState :=
  if s.score / 10 + 1 > s.level then
    { s with level := s.score / 10 + 1,
             fps := s.fps + 1 / 2,
             obstacles := s.obstacles ++ (List.range (s.score / 10 + 1)).map r.obsCells }
  else s

/-- One tick of the main loop, lines 211–274 of the source (the body of
`if not game_over:` when the game is not paused).  Note the source sets
`game_over = True` on a fatal collision but has no `continue`/`break`: the
head insertion, food check, tail pop, level progression and power-up
countdown of the same tick still execute. -/
def tick (r : Rand) (inp : Cell) (s : GState) : GState :=
  if s.game_over then s
  else
    if updateDirection s.direction inp = (0, 0) then
      powerStep { s with direction := updateDirection s.direction inp }
    else
      powerStep (levelStep r (moveStep r (updateDirection s.direction inp) s))

/-- Lines 327–338: when `game_over` holds and R is pressed, all per-run
state is re-initialised (`c` is the cell `random_food_position` produces for
the fresh food); the high score and the stale power-up timer are left
alone. -/
def restartStep (rPressed : Bool) (c : Cell) (s : GState) : GState :=
  if s.game_over && rPressed then
    { snake := [(WIDTH / 2, HEIGHT / 2)], direction := (0, 0), food_pos := c,
      food_power := false, score := 0, game_over := false, level := 1,
      obstacles := [], powerup_active := false, powerup_timer := s.powerup_timer,
      fps := baseFPS, high_score := s.high_score }
  else s

/-- The initial game state (lines 96–107), parametric in the initial food
cell `f` (drawn by `random_food_position(snake, [])`) and the high score
`hs` loaded from the high-score file. -/
def initState (f : Cell) (hs : Nat) : GState :=
  { snake := [(WIDTH / 2, HEIGHT / 2)], direction := (0, 0), food_pos := f,
    food_power := false, score := 0, game_over := false, level := 1,
    obstacles := [], powerup_active := false, powerup_timer := 0,
    fps := baseFPS, high_score := hs }

/-- The pixel position of the cell with indices `(x, y)`
(`pos = (x * CELL_SIZE, y * CELL_SIZE)`, line 85). -/
def cellIndexPos (x y : Nat) : Cell := ((x : Int) * CELL_SIZE, (y : Int) * CELL_SIZE)

/-- Rejection loop of `random_food_position` (lines 81–87).  `props i` is
the pair drawn by the two `random.randint` calls of iteration `i` (reduced
`mod 40`/`mod 30` to the ranges `randint(0, 39)` / `randint(0, 29)`
guarantee); `fuel` bounds the number of iterations we unfold of the
source's unguarded `while True`. -/
def rfpAux (props : Nat → Nat × Nat) (snake obstacles : List Cell) :
    Nat → Nat → Option Cell
  | 0, _ => none
  | fuel + 1, i =>
    let pos := cellIndexPos ((props i).1 % 40) ((props i).2 % 30)
    if pos ∉ snake ∧ pos ∉ obstacles then some pos
    else rfpAux props snake obstacles fuel (i + 1)

/-- The function `random_food_position(snake, obstacles)`, run for at most
`fuel` iterations of its `while True` loop. -/
def random_food_position (props : Nat → Nat × Nat) (snake obstacles : List Cell)
    (fuel : Nat) : Option Cell :=
  rfpAux props snake obstacles fuel 0

/-- The rejection loop returns within some bounded number of iterations. -/
def rfpTerminates (props : Nat → Nat × Nat) (snake obstacles : List Cell) : Prop :=
  ∃ fuel, (random_food_position props snake obstacles fuel).isSome

/-- A cell-aligned pixel position inside the board. -/
def alignedB (p : Cell) : Bool :=
  decide (0 ≤ p.1) && decide (p.1 < WIDTH) && decide (0 ≤ p.2) && decide (p.2 < HEIGHT)
    && decide (p.1 % CELL_SIZE = 0) && decide (p.2 % CELL_SIZE = 0)

/-- The random draws consumed by `tick r inp s` are ones
`random_food_position` could actually have produced: each is a cell-aligned
in-board position avoiding the snake/obstacle lists passed at its call site
(food spawn at line 256 sees the post-insert snake and the pre-tick
obstacles; the `k`-th obstacle append at line 267 additionally sees the
obstacles appended before it). -/
def randOK (r : Rand) (inp : Cell) (s : GState) : Bool :=
  if s.game_over then true
  else
    let dir := updateDirection s.direction inp
    if dir = (0, 0) then true
    else
      let nh := newHead s dir
      let snake1 := nh :: s.snake
      let foodOK :=
        if nh = s.food_pos then
          alignedB r.foodCell && !(decide (r.foodCell ∈ snake1))
            && !(decide (r.foodCell ∈ s.obstacles))
        else true
      let snake2 := if nh = s.food_pos then snake1 else snake1.dropLast
      let ns := if nh = s.food_pos then s.score + 1 else s.score
      let obsOK :=
        if ns / 10 + 1 > s.level then
          (List.range (ns / 10 + 1)).all fun k =>
            alignedB (r.obsCells k) && !(decide (r.obsCells k ∈ snake2))
              && !(decide (r.obsCells k ∈ s.obstacles ++ (List.range k).map r.obsCells))
        else true
      foodOK && obsOK

/-- States the game loop can actually reach: the initial state (for any
legitimate initial food and loaded high score), closed under ticks whose
random draws are legitimate, and under restart from the game-over screen. -/
inductive Reachable : GState → Prop
  | init (f : Cell) (hs : Nat) : alignedB f = true → f ≠ (WIDTH / 2, HEIGHT / 2) →
      Reachable (initState f hs)
  | step (r : Rand) (inp : Cell) (s : GState) : Reachable s → randOK r inp s = true →
      Reachable (tick r inp s)
  | restart (c : Cell) (s : GState) : Reachable s → alignedB c = true →
      c ≠ (WIDTH / 2, HEIGHT / 2) → Reachable (restartStep true c s)

/-- The spec's claimed obstacle total, "the sum of levels 2..N". -/
def specObstacleSum (N : Nat) : Nat := (Finset.Icc 2 N).sum id

/-- Invariant tying level, score and obstacle count together (spec §3 and
§8: `level = score // 10 + 1` and the per-level-up obstacle counts). -/
def levelInv (s : GState) : Prop :=
  s.level = s.score / 10 + 1 ∧ s.obstacles.length = specObstacleSum s.level

/-- Python's `data.split(',')` on the decoded, stripped serial line. -/
def splitOnComma : List Char → List (List Char)
  | [] => [[]]
  | c :: rest =>
    if c = ',' then [] :: splitOnComma rest
    else
      match splitOnComma rest with
      | f :: r => (c :: f) :: r
      | [] => [[c]]

/-- Successful digit-string parse; `none` models the `ValueError` that
Python's `int()` raises on a non-numeric field. -/
def parseDigits (cs : List Char) : Option Nat :=
  if cs ≠ [] ∧ cs.all (·.isDigit) then
    some (cs.foldl (fun n c => n * 10 + (c.toNat - 48)) 0)
  else none

/-- Python's `int()` on one comma-separated field: an optional sign followed
by at least one digit. -/
def parseInt : List Char → Option Int
  | '-' :: rest => (parseDigits rest).map (fun n => -(n : Int))
  | '+' :: rest => (parseDigits rest).map (fun n => (n : Int))
  | cs => (parseDigits cs).map (fun n => (n : Int))

/-- Joystick branch of `get_direction` (lines 115–144): `data` is the
decoded and stripped line read from the serial port.  An empty read, a frame
without exactly three comma-separated fields, or a field `int()` rejects
leaves the previous direction (and the pause flag) unchanged; a well-formed
frame toggles pause on `button == 0` and applies the dead zone with
horizontal priority (`if dx != 0: dy = 0`). -/
def get_direction (data : List Char) (direction : Cell) (paused : Bool) :
    Cell × Bool :=
  if data = [] then (direction, paused)
  else
    let values := splitOnComma data
    if values.length = 3 then
      match parseInt values[0]!, parseInt values[1]!, parseInt values[2]! with
      | some xv, some yv, some b =>
        let joyX := xv - joyCenter
        let joyY := yv - joyCenter
        let paused1 := if b = 0 then !paused else paused
        let dx : Int := if |joyX| > DEAD_ZONE then (if joyX > 0 then 1 else -1) else 0
        let dy : Int := if |joyY| > DEAD_ZONE then (if joyY > 0 then 1 else -1) else 0
        ((dx, if dx ≠ 0 then 0 else dy), paused1)
      | _, _, _ => (direction, paused)
    else (direction, paused)

/-- Arbitrary oracle values for ticks whose random draws are never
consumed. -/
def dummyRand : Rand := ⟨(0, 0), false, fun _ => (0, 0)⟩

/-- Oracle for the wall-collision run: the snake starts at the centre with
the food parked at the top-left corner and just moves up. -/
def c1state (n : Nat) : GState :=
  (List.range n).foldl (fun s _ => tick dummyRand (0, -1) s) (initState (0, 0) 0)

/-- Inputs of the power-up self-pass run: four moves right (eating all the
way), then down, left and up into the snake's own body. -/
def c2inp : Nat → Cell
  | 4 => (0, 1)
  | 5 => (-1, 0)
  | 6 => (0, -1)
  | _ => (1, 0)

/-- Oracle of the power-up self-pass run: food respawns one cell ahead of
the head three times (the third being a power food), then far away at the
corner. -/
def c2rand (i : Nat) : Rand :=
  if i = 2 then ⟨(480, 300), true, fun _ => (0, 0)⟩
  else if i = 3 then ⟨(0, 0), false, fun _ => (0, 0)⟩
  else ⟨(440 + 20 * (i : Int), 300), false, fun _ => (0, 0)⟩

/-- The power-up self-pass run after `n` ticks. -/
def c2state (n : Nat) : GState :=
  (List.range n).foldl (fun s i => tick (c2rand i) (c2inp i) s) (initState (420, 300) 0)

/-- Oracle of the level-up run: food always respawns one cell ahead of the
head moving right; the obstacles appended on the level-up tick land in the
left column. -/
def c7rand (i : Nat) : Rand :=
  ⟨(440 + 20 * (i : Int), 300), false, fun k => (0, 20 * (k : Int))⟩

/-- The level-up run after `n` ticks: the snake moves right from the centre
and eats on every tick, so after 10 ticks the score is 10 and the first
level-up has fired. -/
def c7state (n : Nat) : GState :=
  (List.range n).foldl (fun s i => tick (c7rand i) (1, 0) s) (initState (420, 300) 0)

/-- A sample game-over state: score 17, level 2, two obstacles, a stale
power-up timer and high score 42. -/
def gameOverSample : GState :=
  { snake := [(800, 300), (780, 300)], direction := (1, 0), food_pos := (0, 0),
    food_power := false, score := 17, game_over := true, level := 2,
    obstacles := [(0, 0), (0, 20)], powerup_active := false, powerup_timer := 3,
    fps := baseFPS + 1 / 2, high_score := 42 }

/-- A sample mid-run state with the power-up active on its last timer tick,
at level 5 with the per-level speed increments accumulated in `fps`. -/
def powerExpirySample : GState :=
  { snake := [(400, 300)], direction := (1, 0), food_pos := (0, 0),
    food_power := false, score := 44, game_over := false, level := 5,
    obstacles := [], powerup_active := true, powerup_timer := 1,
    fps := baseFPS + 4 * (1 / 2), high_score := 44 }

/-- A sample one-cell snake one step away from the right wall. -/
def wallSample : GState :=
  { snake := [(780, 300)], direction := (1, 0), food_pos := (0, 0),
    food_power := false, score := 0, game_over := false, level := 1,
    obstacles := [], powerup_active := false, powerup_timer := 0,
    fps := baseFPS, high_score := 0 }

end SnakeGame

namespace SnakeGame

theorem powerStep_snake (s : GState) : (powerStep s).snake = s.snake := by
  simp only [powerStep]; split_ifs <;> rfl

theorem powerStep_score (s : GState) : (powerStep s).score = s.score := by
  simp only [powerStep]; split_ifs <;> rfl

theorem powerStep_level (s : GState) : (powerStep s).level = s.level := by
  simp only [powerStep]; split_ifs <;> rfl

theorem powerStep_obstacles (s : GState) : (powerStep s).obstacles = s.obstacles := by
  simp only [powerStep]; split_ifs <;> rfl

theorem powerStep_game_over (s : GState) : (powerStep s).game_over = s.game_over := by
  simp only [powerStep]; split_ifs <;> rfl

theorem levelStep_snake (r : Rand) (s : GState) : (levelStep r s).snake = s.snake := by
  simp only [levelStep]; split_ifs <;> rfl

theorem levelStep_score (r : Rand) (s : GState) : (levelStep r s).score = s.score := by
  simp only [levelStep]; split_ifs <;> rfl

theorem levelStep_game_over (r : Rand) (s : GState) :
    (levelStep r s).game_over = s.game_over := by
  simp only [levelStep]; split_ifs <;> rfl

theorem moveStep_game_over (r : Rand) (dir : Cell) (s : GState) :
    (moveStep r dir s).game_over =
      (wallCollision (newHead s dir) || bodyCollision s (newHead s dir)) := by
  simp only [moveStep]; split_ifs <;> rfl

theorem moveStep_snake (r : Rand) (dir : Cell) (s : GState) :
    (moveStep r dir s).snake =
      (if newHead s dir = s.food_pos then newHead s dir :: s.snake
       else (newHead s dir :: s.snake).dropLast) := by
  simp only [moveStep]; split_ifs <;> rfl

theorem moveStep_score (r : Rand) (dir : Cell) (s : GState) :
    (moveStep r dir s).score =
      (if newHead s dir = s.food_pos then s.score + 1 else s.score) := by
  simp only [moveStep]; split_ifs <;> rfl

theorem moveStep_level (r : Rand) (dir : Cell) (s : GState) :
    (moveStep r dir s).level = s.level := by
  simp only [moveStep]; split_ifs <;> rfl

theorem moveStep_obstacles (r : Rand) (dir : Cell) (s : GState) :
    (moveStep r dir s).obstacles = s.obstacles := by
  simp only [moveStep]; split_ifs <;> rfl

theorem tick_of_game_over (r : Rand) (inp : Cell) (s : GState) (h : s.game_over = true) :
    tick r inp s = s := by
  simp [tick, h]

theorem specObstacleSum_succ (L : Nat) (h : 1 ≤ L) :
    specObstacleSum (L + 1) = specObstacleSum L + (L + 1) := by
  unfold specObstacleSum
  rw [Finset.sum_Icc_succ_top (by omega) id]
  rfl

theorem tick_levelInv (r : Rand) (inp : Cell) (s : GState) (h : levelInv s) :
    levelInv (tick r inp s) := by
  obtain ⟨hl, ho⟩ := h
  unfold tick
  split_ifs with hgo hdir
  · exact ⟨hl, ho⟩
  · constructor
    · rw [powerStep_level, powerStep_score]; exact hl
    · rw [powerStep_level, powerStep_obstacles]; exact ho
  · set m := moveStep r (updateDirection s.direction inp) s with hm
    have hms : m.score = s.score ∨ m.score = s.score + 1 := by
      rw [hm, moveStep_score]; split_ifs <;> simp
    have hml : m.level = s.level := by rw [hm, moveStep_level]
    have hmo : m.obstacles = s.obstacles := by rw [hm, moveStep_obstacles]
    rw [levelInv]
    rw [powerStep_level, powerStep_score, powerStep_obstacles, levelStep_score]
    simp only [levelStep]
    split_ifs with hup
    · rw [hml] at hup
      have hsc : m.score = s.score + 1 := by
        rcases hms with hc | hc
        · exfalso; rw [hc] at hup; omega
        · exact hc
      have hnl : m.score / 10 + 1 = s.level + 1 := by rw [hsc] at hup ⊢; omega
      constructor
      · rfl
      · simp only [List.length_append, List.length_map, List.length_range]
        rw [hmo, ho, hnl, specObstacleSum_succ s.level (by omega)]
    · rw [hml] at hup
      constructor
      · rw [hml]
        rcases hms with hc | hc <;> rw [hc] at hup ⊢ <;> omega
      · rw [hml, hmo, ho]

theorem reachable_levelInv (s : GState) (h : Reachable s) : levelInv s := by
  induction h with
  | init f hs _ _ =>
    constructor
    · show (1 : ℕ) = 0 / 10 + 1
      decide
    · show (0 : ℕ) = specObstacleSum 1
      decide
  | step r inp s _ _ ih => exact tick_levelInv r inp s ih
  | restart c s _ _ _ ih =>
    unfold restartStep
    split_ifs with hc
    · constructor
      · show (1 : ℕ) = 0 / 10 + 1
        decide
      · show (0 : ℕ) = specObstacleSum 1
        decide
    · exact ih

theorem tick_level_mono (r : Rand) (inp : Cell) (s : GState) :
    s.level ≤ (tick r inp s).level := by
  unfold tick
  split_ifs with hgo hdir
  · exact le_refl _
  · rw [powerStep_level]
  · rw [powerStep_level]
    simp only [levelStep]
    split_ifs with hup
    · rw [moveStep_level] at hup
      show s.level ≤ (moveStep r (updateDirection s.direction inp) s).score / 10 + 1
      omega
    · rw [moveStep_level]

theorem tick_level_le (r : Rand) (inp : Cell) (s : GState)
    (hl : s.level = s.score / 10 + 1) : (tick r inp s).level ≤ s.level + 1 := by
  unfold tick
  split_ifs with hgo hdir
  · omega
  · rw [powerStep_level]
    show s.level ≤ s.level + 1
    omega
  · rw [powerStep_level]
    simp only [levelStep]
    split_ifs with hup
    · show (moveStep r (updateDirection s.direction inp) s).score / 10 + 1 ≤ s.level + 1
      have hms : (moveStep r (updateDirection s.direction inp) s).score = s.score ∨
          (moveStep r (updateDirection s.direction inp) s).score = s.score + 1 := by
        rw [moveStep_score]; split_ifs <;> simp
      rcases hms with hc | hc <;> rw [hc] <;> omega
    · rw [moveStep_level]; omega

theorem rfpAux_spec (props : Nat → Nat × Nat) (snake obstacles : List Cell)
    (fuel i : Nat) (pos : Cell) (h : rfpAux props snake obstacles fuel i = some pos) :
    (∃ x, x < 40 ∧ ∃ y, y < 30 ∧ pos = cellIndexPos x y) ∧
      pos ∉ snake ∧ pos ∉ obstacles := by
  induction fuel generalizing i with
  | zero => simp [rfpAux] at h
  | succ n ih =>
    rw [rfpAux] at h
    split at h
    · rename_i hc
      obtain ⟨h1, h2⟩ := hc
      cases h
      exact ⟨⟨(props i).1 % 40, Nat.mod_lt _ (by norm_num),
        (props i).2 % 30, Nat.mod_lt _ (by norm_num), rfl⟩, h1, h2⟩
    · exact ih _ h

theorem rfpAux_of_free (props : Nat → Nat × Nat) (snake obstacles : List Cell)
    (j : Nat) :
    ∀ i, (cellIndexPos ((props (i + j)).1 % 40) ((props (i + j)).2 % 30) ∉ snake ∧
          cellIndexPos ((props (i + j)).1 % 40) ((props (i + j)).2 % 30) ∉ obstacles) →
    ∃ pos, rfpAux props snake obstacles (j + 1) i = some pos := by
  induction j with
  | zero =>
    intro i h
    rw [rfpAux]
    simp only [Nat.add_zero] at h
    rw [if_pos h]
    exact ⟨_, rfl⟩
  | succ n ih =>
    intro i h
    rw [rfpAux]
    split
    · exact ⟨_, rfl⟩
    · have harg : i + 1 + n = i + (n + 1) := by omega
      exact ih (i + 1) (by rw [harg]; exact h)

theorem rfpAux_stuck (fuel : Nat) :
    ∀ i, rfpAux (fun _ => (20, 15)) [((400 : Int), (300 : Int))] [] fuel i = none := by
  induction fuel with
  | zero => intro i; rfl
  | succ n ih =>
    intro i
    simp only [rfpAux]
    rw [if_neg (by decide)]
    exact ih (i + 1)

end SnakeGame

namespace SnakeGame

/-- C3: a candidate input is accepted as the new direction only if it is
non-zero and not the exact negation of the current direction (this is the
definition of `updateDirection`, taken from lines 213–215); consequently the
updated direction never equals the negation of a non-zero prior
direction. -/
theorem direction_no_reversal (cur cand : Cell) (h : cur ≠ (0, 0)) :
    updateDirection cur cand ≠ (-cur.1, -cur.2) := by
  obtain ⟨a, b⟩ := cur
  obtain ⟨c, d⟩ := cand
  simp only [updateDirection, ne_eq, Prod.mk.injEq, not_and, Prod.ext_iff] at *
  split <;> rename_i hc <;> simp_all <;> omega

/-- Witness for C3: a direct reversal attempt from `(1, 0)` to `(-1, 0)` is
rejected, leaving a direction different from the reversal. -/
theorem direction_no_reversal_witness :
    updateDirection (1, 0) (-1, 0) ≠ (-(1 : Int), -(0 : Int)) :=
  direction_no_reversal (1, 0) (-1, 0) (by decide)

/-- C5: whenever the `random_food_position` rejection loop returns, the
returned position is a cell-aligned position inside the board (it is
`(20 x, 20 y)` for some `x < 40`, `y < 30`) that lies in neither the snake
nor the obstacle list. -/
theorem random_food_position_spec (props : Nat → Nat × Nat)
    (snake obstacles : List Cell) (fuel : Nat) (pos : Cell)
    (h : random_food_position props snake obstacles fuel = some pos) :
    (∃ x, x < 40 ∧ ∃ y, y < 30 ∧ pos = cellIndexPos x y) ∧
      pos ∉ snake ∧ pos ∉ obstacles :=
  rfpAux_spec props snake obstacles fuel 0 pos h

/-- Witness for C5: a run of the loop against the occupied cell `(20, 20)`
returns `(0, 0)`, which is aligned, in bounds and unoccupied. -/
theorem random_food_position_spec_witness :
    (∃ x, x < 40 ∧ ∃ y, y < 30 ∧ ((0, 0) : Cell) = cellIndexPos x y) ∧
      ((0, 0) : Cell) ∉ [((20, 20) : Cell)] ∧ ((0, 0) : Cell) ∉ ([] : List Cell) :=
  random_food_position_spec (fun _ => (0, 0)) [((20, 20) : Cell)] [] 1 (0, 0) (by decide)

/-- C6 counterexample: the source's `while True` rejection loop has no
guard and no deterministic fallback scan, so with only 1 of the 1200 grid
cells occupied, a sample sequence that keeps proposing that occupied cell
never returns: termination is not guaranteed for every occupied set smaller
than the grid. -/
theorem c6_no_termination_guard :
    ([((400 : Int), (300 : Int))] : List Cell).length + ([] : List Cell).length < 40 * 30 ∧
    ¬ rfpTerminates (fun _ => (20, 15)) [((400 : Int), (300 : Int))] [] := by
  refine ⟨by decide, ?_⟩
  simp only [rfpTerminates, random_food_position]
  rintro ⟨fuel, hsome⟩
  rw [rfpAux_stuck fuel 0] at hsome
  simp at hsome

/-- C6 (amended): the rejection loop terminates whenever the sample stream
eventually proposes a free cell — which is almost sure for uniform sampling
when the occupied set is smaller than the grid, but is not guaranteed, since
the source has no fallback scan. -/
theorem random_food_position_terminates (props : Nat → Nat × Nat)
    (snake obstacles : List Cell)
    (h : ∃ j, cellIndexPos ((props j).1 % 40) ((props j).2 % 30) ∉ snake ∧
              cellIndexPos ((props j).1 % 40) ((props j).2 % 30) ∉ obstacles) :
    rfpTerminates props snake obstacles := by
  obtain ⟨j, hj⟩ := h
  obtain ⟨pos, hpos⟩ := rfpAux_of_free props snake obstacles j 0 (by simpa using hj)
  exact ⟨j + 1, by rw [random_food_position, hpos]; rfl⟩

/-- Witness for C6 (amended): with the head cell occupied and the stream
proposing cell `(n, 0)` at step `n`, the loop terminates. -/
theorem random_food_position_terminates_witness :
    rfpTerminates (fun n => (n, 0)) [((0 : Int), (0 : Int))] [] :=
  random_food_position_terminates (fun n => (n, 0)) [((0 : Int), (0 : Int))] []
    ⟨1, by decide, by decide⟩

/-- C8: in joystick mode a malformed frame — an empty read, a frame without
exactly three comma-separated fields, or a field that does not parse as an
integer — is discarded: the previous direction and the pause flag are
returned unchanged, and nothing fails. -/
theorem get_direction_malformed_frame (data : List Char) (dir : Cell) (p : Bool)
    (h : data = [] ∨ (splitOnComma data).length ≠ 3 ∨
         parseInt (splitOnComma data)[0]! = none ∨
         parseInt (splitOnComma data)[1]! = none ∨
         parseInt (splitOnComma data)[2]! = none) :
    get_direction data dir p = (dir, p) := by
  simp only [get_direction]
  rcases h with h | h | h | h | h
  · rw [if_pos h]
  all_goals
    split_ifs <;>
      first
        | rfl
        | (split <;> simp_all)

/-- Witness for C8: the frame `512,ab,1` has three fields but a non-integer
second field; the previous direction `(0, 1)` survives. -/
theorem get_direction_malformed_frame_witness :
    get_direction "512,ab,1".toList (0, 1) false = ((0, 1), false) :=
  get_direction_malformed_frame "512,ab,1".toList (0, 1) false (by decide)

/-- C9: a restart keypress on the game-over screen resets score, level,
obstacles, power-up flag and the snake (length 1 at the centre) to their
initial values and clears `game_over`, while the high score is left
unchanged. -/
theorem restart_resets_run_state (c : Cell) (s : GState) (h : s.game_over = true) :
    (restartStep true c s).score = 0 ∧ (restartStep true c s).level = 1 ∧
    (restartStep true c s).obstacles = [] ∧
    (restartStep true c s).powerup_active = false ∧
    (restartStep true c s).snake = [(WIDTH / 2, HEIGHT / 2)] ∧
    (restartStep true c s).game_over = false ∧
    (restartStep true c s).high_score = s.high_score := by
  simp [restartStep, h]

/-- Witness for C9: restarting from a concrete game-over state with score
17, level 2, two obstacles and high score 42 resets the run state and keeps
the high score. -/
theorem restart_resets_run_state_witness :
    (restartStep true (40, 60) gameOverSample).score = 0 ∧
    (restartStep true (40, 60) gameOverSample).level = 1 ∧
    (restartStep true (40, 60) gameOverSample).obstacles = [] ∧
    (restartStep true (40, 60) gameOverSample).powerup_active = false ∧
    (restartStep true (40, 60) gameOverSample).snake = [(WIDTH / 2, HEIGHT / 2)] ∧
    (restartStep true (40, 60) gameOverSample).game_over = false ∧
    (restartStep true (40, 60) gameOverSample).high_score = gameOverSample.high_score :=
  restart_resets_run_state (40, 60) gameOverSample (by decide)

end SnakeGame

namespace SnakeGame

/-- C4: on a live moving tick, if the new head equals the food position the
snake length and the score both increase by exactly 1; if no collision
occurs and no food is eaten the snake length is unchanged (head prepended,
tail popped). -/
theorem tick_growth_rule (r : Rand) (inp : Cell) (s : GState)
    (h0 : s.game_over = false)
    (hd : updateDirection s.direction inp ≠ (0, 0)) :
    (newHead s (updateDirection s.direction inp) = s.food_pos →
      (tick r inp s).snake.length = s.snake.length + 1 ∧
      (tick r inp s).score = s.score + 1) ∧
    (wallCollision (newHead s (updateDirection s.direction inp)) = false →
     bodyCollision s (newHead s (updateDirection s.direction inp)) = false →
     newHead s (updateDirection s.direction inp) ≠ s.food_pos →
      (tick r inp s).snake.length = s.snake.length) := by
  unfold tick
  rw [if_neg (by simp [h0]), if_neg hd]
  rw [powerStep_snake, levelStep_snake, moveStep_snake,
    powerStep_score, levelStep_score, moveStep_score]
  constructor
  · intro he
    rw [if_pos he, if_pos he]
    simp
  · intro _ _ hne
    rw [if_neg hne]
    simp [List.length_dropLast]

/-- Witness for C4: from the fresh state with the food one cell to the
right, the tick that eats it takes the snake from length 1 to length 2 and
the score from 0 to 1. -/
theorem tick_growth_rule_witness :
    (tick dummyRand (1, 0) (initState (420, 300) 0)).snake.length
        = (initState (420, 300) 0).snake.length + 1 ∧
    (tick dummyRand (1, 0) (initState (420, 300) 0)).score
        = (initState (420, 300) 0).score + 1 :=
  (tick_growth_rule dummyRand (1, 0) (initState (420, 300) 0)
    (by decide) (by decide)).1 (by decide)

/-- C10: on a live tick on which the power-up countdown reaches zero (timer
at most 1 before the decrement) and no power food is eaten, the tick rate is
reset to exactly the base value `7` and the power-up deactivated — whatever
the current level and accumulated `+0.5`-per-level increments were. -/
theorem powerup_expiry_resets_fps (r : Rand) (inp : Cell) (s : GState)
    (h0 : s.game_over = false)
    (h1 : s.powerup_active = true)
    (h2 : s.powerup_timer ≤ 1)
    (h3 : ¬(updateDirection s.direction inp ≠ (0, 0) ∧
            newHead s (updateDirection s.direction inp) = s.food_pos ∧
            s.food_power = true)) :
    (tick r inp s).fps = baseFPS ∧ (tick r inp s).powerup_active = false := by
  unfold tick
  rw [if_neg (by simp [h0])]
  split_ifs with hdir
  · simp only [powerStep]
    rw [if_pos (by simpa using h1)]
    rw [if_pos (by simp; omega)]
    exact ⟨rfl, rfl⟩
  · have hact : (levelStep r (moveStep r (updateDirection s.direction inp) s)).powerup_active
        = true := by
      simp only [levelStep, moveStep]
      split_ifs <;> simp_all
    have htim : (levelStep r (moveStep r (updateDirection s.direction inp) s)).powerup_timer
        ≤ 1 := by
      simp only [levelStep, moveStep]
      split_ifs <;> simp_all
    simp only [powerStep]
    rw [if_pos hact, if_pos (by omega)]
    exact ⟨rfl, rfl⟩

/-- Witness for C10: in `powerExpirySample` (level 5, `fps = 9`, timer 1),
the next tick drops `fps` to the base 7, discarding the four accumulated
level increments. -/
theorem powerup_expiry_resets_fps_witness :
    (tick dummyRand (1, 0) powerExpirySample).fps = baseFPS ∧
    (tick dummyRand (1, 0) powerExpirySample).powerup_active = false :=
  powerup_expiry_resets_fps dummyRand (1, 0) powerExpirySample
    (by decide) (by decide) (by decide) (by decide)

/-- C2 (amended): a tick taken with the power-up inactive from a
duplicate-free snake, when it does not set game-over, leaves the snake
duplicate-free.  (The unamended claim fails when a power-up is active: see
the counterexample.) -/
theorem tick_snake_nodup (r : Rand) (inp : Cell) (s : GState)
    (h1 : s.snake.Nodup) (h2 : s.powerup_active = false)
    (h3 : (tick r inp s).game_over = false) :
    (tick r inp s).snake.Nodup := by
  unfold tick at h3 ⊢
  split_ifs at h3 ⊢ with hgo hdir
  · exact h1
  · rw [powerStep_snake]; exact h1
  · rw [powerStep_snake, levelStep_snake, moveStep_snake]
    rw [powerStep_game_over, levelStep_game_over, moveStep_game_over] at h3
    have hmem : newHead s (updateDirection s.direction inp) ∉ s.snake := by
      intro hmem
      have hb : bodyCollision s (newHead s (updateDirection s.direction inp)) = true := by
        simp [bodyCollision, h2, hmem]
      simp [hb] at h3
    have hnodup : (newHead s (updateDirection s.direction inp) :: s.snake).Nodup :=
      List.nodup_cons.mpr ⟨hmem, h1⟩
    split_ifs
    · exact hnodup
    · exact (List.dropLast_sublist _).nodup hnodup

/-- Witness for C2 (amended): the first eating tick of a fresh run keeps
the two-segment snake duplicate-free. -/
theorem tick_snake_nodup_witness :
    (tick dummyRand (1, 0) (initState (420, 300) 0)).snake.Nodup :=
  tick_snake_nodup dummyRand (1, 0) (initState (420, 300) 0)
    (by decide) (by decide) (by decide)

/-- Reachability of the power-up self-pass run: grow to length 5 by eating
four foods (the fourth a power food), then hook down, left and up. -/
theorem c2state_reachable : Reachable (c2state 7) := by
  have h0 : Reachable (c2state 0) := Reachable.init (420, 300) 0 (by decide) (by decide)
  have h1 : Reachable (c2state 1) :=
    Reachable.step (c2rand 0) (c2inp 0) (c2state 0) h0 (by decide)
  have h2 : Reachable (c2state 2) :=
    Reachable.step (c2rand 1) (c2inp 1) (c2state 1) h1 (by decide)
  have h3 : Reachable (c2state 3) :=
    Reachable.step (c2rand 2) (c2inp 2) (c2state 2) h2 (by decide)
  have h4 : Reachable (c2state 4) :=
    Reachable.step (c2rand 3) (c2inp 3) (c2state 3) h3 (by decide)
  have h5 : Reachable (c2state 5) :=
    Reachable.step (c2rand 4) (c2inp 4) (c2state 4) h4 (by decide)
  have h6 : Reachable (c2state 6) :=
    Reachable.step (c2rand 5) (c2inp 5) (c2state 5) h5 (by decide)
  exact Reachable.step (c2rand 6) (c2inp 6) (c2state 6) h6 (by decide)

/-- C2 counterexample: a reachable state produced by a tick that did not
set game-over (the power-up was active, so passing through the body is not
fatal) whose snake contains the cell `(460, 300)` twice. -/
theorem c2_powerup_duplicate :
    Reachable (c2state 7) ∧ (c2state 7).game_over = false ∧
      ¬ (c2state 7).snake.Nodup :=
  ⟨c2state_reachable, by decide, by decide⟩

end SnakeGame

namespace SnakeGame

/-- C1 (amended): on a tick with a fatal collision (wall, or body/obstacle
with the power-up inactive) the state machine sets `game_over`, but does NOT
skip the remaining tick steps: the rejected head is still prepended (and the
tail popped unless the head landed on the food), so the snake is modified on
that very tick; only the subsequent ticks are no-ops. -/
theorem fatal_tick_sets_game_over (r : Rand) (inp : Cell) (s : GState)
    (h0 : s.game_over = false)
    (hd : updateDirection s.direction inp ≠ (0, 0))
    (hf : (wallCollision (newHead s (updateDirection s.direction inp))
            || bodyCollision s (newHead s (updateDirection s.direction inp))) = true) :
    (tick r inp s).game_over = true ∧
    (tick r inp s).snake =
      (if newHead s (updateDirection s.direction inp) = s.food_pos
       then newHead s (updateDirection s.direction inp) :: s.snake
       else (newHead s (updateDirection s.direction inp) :: s.snake).dropLast) ∧
    ∀ r2 inp2, tick r2 inp2 (tick r inp s) = tick r inp s := by
  have hgo : (tick r inp s).game_over = true := by
    unfold tick
    rw [if_neg (by simp [h0]), if_neg hd,
      powerStep_game_over, levelStep_game_over, moveStep_game_over]
    exact hf
  refine ⟨hgo, ?_, fun r2 inp2 => tick_of_game_over r2 inp2 _ hgo⟩
  unfold tick
  rw [if_neg (by simp [h0]), if_neg hd, powerStep_snake, levelStep_snake, moveStep_snake]

/-- Witness for C1 (amended): from `wallSample` (head one cell from the
right wall, moving right), the next tick sets game over, replaces the snake
by its out-of-bounds successor, and freezes all later ticks. -/
theorem fatal_tick_sets_game_over_witness :
    (tick dummyRand (1, 0) wallSample).game_over = true ∧
    (tick dummyRand (1, 0) wallSample).snake =
      (if newHead wallSample (updateDirection wallSample.direction (1, 0))
             = wallSample.food_pos
       then newHead wallSample (updateDirection wallSample.direction (1, 0))
              :: wallSample.snake
       else (newHead wallSample (updateDirection wallSample.direction (1, 0))
              :: wallSample.snake).dropLast) ∧
    ∀ r2 inp2, tick r2 inp2 (tick dummyRand (1, 0) wallSample)
        = tick dummyRand (1, 0) wallSample :=
  fatal_tick_sets_game_over dummyRand (1, 0) wallSample
    (by decide) (by decide) (by decide)

/-- Reachability of the wall-collision run: fifteen moves up from the
centre put the head on the top row. -/
theorem c1state_reachable : Reachable (c1state 15) := by
  have h0 : Reachable (c1state 0) := Reachable.init (0, 0) 0 (by decide) (by decide)
  have h1 : Reachable (c1state 1) := by
    exact Reachable.step dummyRand (0, -1) (c1state 0) h0 (by decide)
  have h2 : Reachable (c1state 2) := by
    exact Reachable.step dummyRand (0, -1) (c1state 1) h1 (by decide)
  have h3 : Reachable (c1state 3) := by
    exact Reachable.step dummyRand (0, -1) (c1state 2) h2 (by decide)
  have h4 : Reachable (c1state 4) := by
    exact Reachable.step dummyRand (0, -1) (c1state 3) h3 (by decide)
  have h5 : Reachable (c1state 5) := by
    exact Reachable.step dummyRand (0, -1) (c1state 4) h4 (by decide)
  have h6 : Reachable (c1state 6) := by
    exact Reachable.step dummyRand (0, -1) (c1state 5) h5 (by decide)
  have h7 : Reachable (c1state 7) := by
    exact Reachable.step dummyRand (0, -1) (c1state 6) h6 (by decide)
  have h8 : Reachable (c1state 8) := by
    exact Reachable.step dummyRand (0, -1) (c1state 7) h7 (by decide)
  have h9 : Reachable (c1state 9) := by
    exact Reachable.step dummyRand (0, -1) (c1state 8) h8 (by decide)
  have h10 : Reachable (c1state 10) := by
    exact Reachable.step dummyRand (0, -1) (c1state 9) h9 (by decide)
  have h11 : Reachable (c1state 11) := by
    exact Reachable.step dummyRand (0, -1) (c1state 10) h10 (by decide)
  have h12 : Reachable (c1state 12) := by
    exact Reachable.step dummyRand (0, -1) (c1state 11) h11 (by decide)
  have h13 : Reachable (c1state 13) := by
    exact Reachable.step dummyRand (0, -1) (c1state 12) h12 (by decide)
  have h14 : Reachable (c1state 14) := by
    exact Reachable.step dummyRand (0, -1) (c1state 13) h13 (by decide)
  exact Reachable.step dummyRand (0, -1) (c1state 14) h14 (by decide)

/-- C1 counterexample: from the reachable state with the head on the top
row and moving up, the fatal wall tick sets `game_over` but does NOT leave
the snake unchanged — the remaining tick steps still run and move the snake
out of bounds. -/
theorem c1_fatal_tick_mutates :
    Reachable (c1state 15) ∧ (c1state 15).game_over = false ∧
    randOK dummyRand (0, -1) (c1state 15) = true ∧
    (tick dummyRand (0, -1) (c1state 15)).game_over = true ∧
    (tick dummyRand (0, -1) (c1state 15)).snake ≠ (c1state 15).snake :=
  ⟨c1state_reachable, by decide, by decide, by decide, by decide⟩

/-- C7 (amended): in every reachable state the level equals
`score / 10 + 1`, the obstacle count equals the sum of the levels `2..level`
(so after N level-ups from level 1 it is the sum of levels 2..N+1, not
2..N), and a tick never decreases the level and raises it by at most 1. -/
theorem reachable_level_obstacles (s : GState) (h : Reachable s) :
    s.level = s.score / 10 + 1 ∧
    s.obstacles.length = specObstacleSum s.level ∧
    ∀ r inp, s.level ≤ (tick r inp s).level ∧ (tick r inp s).level ≤ s.level + 1 := by
  obtain ⟨hl, ho⟩ := reachable_levelInv s h
  exact ⟨hl, ho, fun r inp => ⟨tick_level_mono r inp s, tick_level_le r inp s hl⟩⟩

/-- Witness for C7 (amended): the invariants instantiated at the initial
state of a run whose loaded high score is 5. -/
theorem reachable_level_obstacles_witness :
    (initState (420, 300) 5).level = (initState (420, 300) 5).score / 10 + 1 ∧
    (initState (420, 300) 5).obstacles.length
        = specObstacleSum (initState (420, 300) 5).level ∧
    ∀ r inp, (initState (420, 300) 5).level ≤ (tick r inp (initState (420, 300) 5)).level ∧
      (tick r inp (initState (420, 300) 5)).level ≤ (initState (420, 300) 5).level + 1 :=
  reachable_level_obstacles (initState (420, 300) 5)
    (Reachable.init (420, 300) 5 (by decide) (by decide))

/-- Reachability of the level-up run: ten eating moves to the right take
the score to 10 and fire the first level-up. -/
theorem c7state_reachable : Reachable (c7state 10) := by
  have h0 : Reachable (c7state 0) := Reachable.init (420, 300) 0 (by decide) (by decide)
  have h1 : Reachable (c7state 1) :=
    Reachable.step (c7rand 0) (1, 0) (c7state 0) h0 (by decide)
  have h2 : Reachable (c7state 2) :=
    Reachable.step (c7rand 1) (1, 0) (c7state 1) h1 (by decide)
  have h3 : Reachable (c7state 3) :=
    Reachable.step (c7rand 2) (1, 0) (c7state 2) h2 (by decide)
  have h4 : Reachable (c7state 4) :=
    Reachable.step (c7rand 3) (1, 0) (c7state 3) h3 (by decide)
  have h5 : Reachable (c7state 5) :=
    Reachable.step (c7rand 4) (1, 0) (c7state 4) h4 (by decide)
  have h6 : Reachable (c7state 6) :=
    Reachable.step (c7rand 5) (1, 0) (c7state 5) h5 (by decide)
  have h7 : Reachable (c7state 7) :=
    Reachable.step (c7rand 6) (1, 0) (c7state 6) h6 (by decide)
  have h8 : Reachable (c7state 8) :=
    Reachable.step (c7rand 7) (1, 0) (c7state 7) h7 (by decide)
  have h9 : Reachable (c7state 9) :=
    Reachable.step (c7rand 8) (1, 0) (c7state 8) h8 (by decide)
  exact Reachable.step (c7rand 9) (1, 0) (c7state 9) h9 (by decide)

/-- C7 counterexample: after exactly one level-up from level 1 (level is
now 2), the reachable state holds 2 obstacle cells — the loop appended
`level` obstacles — whereas "the sum of levels 2..N" for N = 1 level-up is
the empty sum 0. -/
theorem c7_obstacle_sum_mismatch :
    Reachable (c7state 10) ∧ (c7state 10).level = 1 + 1 ∧
    (c7state 10).obstacles.length = 2 ∧
    (c7state 10).obstacles.length ≠ specObstacleSum 1 :=
  ⟨c7state_reachable, by decide, by decide, by decide⟩

end SnakeGame
